import Mathlib

/-!
Verification of the Vayu Drishti air-quality post-processing pipeline.

This file gives a shallow embedding, in Lean 4, of the deterministic
fusion / interpolation / temporal-adjustment / categorization code of the
repository (files `aqi_forecasting_model.py` and `forecasting_engine.py`),
and proves or refutes the specification claims about it.

Modelling conventions:
* Python floats are modelled as exact rationals (`ℚ`); Python ints as `ℤ`
  (or `ℕ` for counts).
* External library leaves that compute transcendental functions
  (`numpy` haversine trigonometry, `numpy.cos`, `numpy.pi`,
  `scipy.stats.norm.ppf`) are taken as parameters of the embedded
  functions, so every definition stays executable.
* Fallible code returns `Except PyError α`; a Python exception raised on
  some path is modelled by the corresponding `PyError` value.
* Python local variables that are only conditionally assigned are modelled
  as `Option` values; reading an unassigned one yields
  `PyError.unboundLocalError`, exactly as CPython raises `UnboundLocalError`.
-/

/-- Runtime errors arising (or claimed to arise) in the modelled code paths.
`insufficientData` is the spec's `InsufficientDataError`; it is included so
that claims about it can be stated, although the source never raises it. -/
inductive PyError where
  | valueError
  | indexError
  | attributeError
  | unboundLocalError
  | insufficientData
  deriving DecidableEq, Repr

namespace AQIHealthAdvisor

/-- Category record returned by `AQIHealthAdvisor.get_aqi_category`
(`aqi_forecasting_model.py` lines 677-736). -/
structure CategoryInfo where
  category : String
  color : String
  color_name : String
  risk_level : String
  emoji : String
  deriving DecidableEq, Repr

/-- `AQIHealthAdvisor.get_aqi_category` (`aqi_forecasting_model.py`
lines 677-736): a total chain of `if aqi <= bound` tests; there is no
validation of negative input anywhere in the function. -/
def get_aqi_category (aqi : ℚ) : CategoryInfo :=
  if aqi ≤ 50 then
    { category := "Good", color := "#00E400", color_name := "Green",
      risk_level := "Minimal", emoji := "😊" }
  else if aqi ≤ 100 then
    { category := "Satisfactory", color := "#FFFF00", color_name := "Yellow",
      risk_level := "Minor", emoji := "🙂" }
  else if aqi ≤ 200 then
    { category := "Moderate", color := "#FF7E00", color_name := "Orange",
      risk_level := "Moderate", emoji := "😐" }
  else if aqi ≤ 300 then
    { category := "Poor", color := "#FF0000", color_name := "Red",
      risk_level := "High", emoji := "😷" }
  else if aqi ≤ 400 then
    { category := "Very Poor", color := "#8F3F97", color_name := "Purple",
      risk_level := "Very High", emoji := "😨" }
  else
    { category := "Severe", color := "#7E0023", color_name := "Maroon",
      risk_level := "Severe", emoji := "☠️" }

end AQIHealthAdvisor

namespace ForecastingEngine

/-- `ForecastingEngine.DIURNAL_PEAK_HOUR` (`forecasting_engine.py` line 49). -/
def DIURNAL_PEAK_HOUR : ℤ := 14

/-- `ForecastingEngine.RUSH_HOUR_MORNING` (`forecasting_engine.py` line 50). -/
def RUSH_HOUR_MORNING : ℤ := 8

/-- `ForecastingEngine.RUSH_HOUR_EVENING` (`forecasting_engine.py` line 51). -/
def RUSH_HOUR_EVENING : ℤ := 20

/-- `ForecastingEngine.WEEKEND_REDUCTION` (`forecasting_engine.py` line 52). -/
def WEEKEND_REDUCTION : ℚ := 0.8

/-- `ForecastingEngine.SEASONAL_FACTORS` (`forecasting_engine.py`
lines 55-60), as a lookup on the season name with the `.get` default 1.0. -/
def SEASONAL_FACTORS (season : String) : ℚ :=
  if season = "winter" then 1.3
  else if season = "spring" then 1.0
  else if season = "monsoon" then 0.7
  else if season = "autumn" then 1.1
  else 1.0

/-- The slice of a Python `datetime` that the engine reads: `.hour`,
`.weekday()` (Monday = 0) and `.month`.  `datetime` arithmetic itself is a
standard-library leaf outside the modelled code. -/
structure PyDateTime where
  hour : ℤ
  weekday : ℤ
  month : ℤ
  deriving DecidableEq, Repr

/-- `ForecastingEngine.get_season` (`forecasting_engine.py` lines 204-223). -/
def get_season (date : PyDateTime) : String :=
  if date.month = 12 ∨ date.month = 1 ∨ date.month = 2 then "winter"
  else if date.month = 3 ∨ date.month = 4 ∨ date.month = 5 then "spring"
  else if date.month = 6 ∨ date.month = 7 ∨ date.month = 8 ∨ date.month = 9 then
    "monsoon"
  else "autumn"

/-- `ForecastingEngine.add_diurnal_pattern` (`forecasting_engine.py`
lines 225-242).  `np.cos` and `np.pi` are external numpy leaves, passed in
as the parameters `npCos` and `npPi`. -/
def add_diurnal_pattern (npCos : ℚ → ℚ) (npPi : ℚ)
    (base_aqi : ℚ) (hour : ℤ) : ℚ :=
  let hour_angle : ℚ := ((hour - DIURNAL_PEAK_HOUR : ℤ) : ℚ) * (2 * npPi / 24)
  let pattern_factor : ℚ := 1.0 + 0.3 * npCos hour_angle
  base_aqi * pattern_factor

/-- `ForecastingEngine.add_rush_hour_peaks` (`forecasting_engine.py`
lines 244-276): early return of the base value on weekends, otherwise an
additive boost of `25 * (1 - |hour - 8| / 2)` in hours 7-9 and
`30 * (1 - |hour - 20| / 2)` in hours 19-21, else zero. -/
def add_rush_hour_peaks (base_aqi : ℚ) (hour : ℤ)
    (is_weekday : Bool) : ℚ :=
  if ¬ is_weekday then base_aqi
  else
    let rush_hour_boost : ℚ :=
      if 7 ≤ hour ∧ hour ≤ 9 then
        let peak_distance : ℕ := (hour - RUSH_HOUR_MORNING).natAbs
        25 * (1 - (peak_distance : ℚ) / 2)
      else if 19 ≤ hour ∧ hour ≤ 21 then
        let peak_distance : ℕ := (hour - RUSH_HOUR_EVENING).natAbs
        30 * (1 - (peak_distance : ℚ) / 2)
      else 0
    base_aqi + rush_hour_boost

/-- `ForecastingEngine.add_weekly_variation` (`forecasting_engine.py`
lines 278-293). -/
def add_weekly_variation (base_aqi : ℚ) (is_weekend : Bool) : ℚ :=
  if is_weekend then base_aqi * WEEKEND_REDUCTION else base_aqi

/-- `ForecastingEngine.add_seasonal_factor` (`forecasting_engine.py`
lines 295-311). -/
def add_seasonal_factor (base_aqi : ℚ) (date : PyDateTime) : ℚ :=
  let season := get_season date
  let factor := SEASONAL_FACTORS season
  base_aqi * factor

/-- A Python `for` loop that appends one result per index and propagates
the first raised exception: the effect of the forecast loop of
`generate_forecast`. -/
def run_loop {ε β : Type} (f : ℕ → Except ε β) : List ℕ → Except ε (List β)
  | [] => .ok []
  | i :: rest =>
    match f i with
    | .error e => .error e
    | .ok p =>
      match run_loop f rest with
      | .error e => .error e
      | .ok ps => .ok (p :: ps)

/-- One hourly entry of a generated forecast horizon, mirroring the dict
appended at `forecasting_engine.py` lines 369-380. -/
structure ForecastPoint where
  timestamp : PyDateTime
  hour_offset : ℕ
  aqi_forecast : ℚ
  aqi_lower : ℚ
  aqi_upper : ℚ
  base_aqi : ℚ
  confidence_interval_width : ℚ
  season : String
  is_weekend : Bool
  is_rush_hour : Bool
  deriving DecidableEq, Repr

/-- The horizon clamp of `ForecastingEngine.generate_forecast`
(`forecasting_engine.py` lines 337-339). -/
def clamp_forecast_hours (forecast_hours : ℤ) : ℤ :=
  if forecast_hours < 1 ∨ forecast_hours > 72 then
    max 1 (min 72 forecast_hours)
  else forecast_hours

/-- One iteration of the forecast loop of `ForecastingEngine.generate_forecast`
(`forecasting_engine.py` lines 343-380).  `base_pred` is
`self.model.predict(features)[0]` (the trained model is an external
collaborator and `features` is fixed, so the value is the same each
iteration); `times` maps the hour offset to `start_time +
timedelta(hours=hour_offset)` (datetime arithmetic is a standard-library
leaf).  The Python locals `hour`, `is_weekday` and `is_weekend` are
assigned only inside the `if include_patterns:` branch, so they are
modelled as an `Option`; the dict construction at lines 369-380 reads
`is_weekend` and `hour` unconditionally, which raises `UnboundLocalError`
when they were never assigned. -/
def forecast_step (npCos : ℚ → ℚ) (npPi : ℚ) (base_pred : ℚ)
    (times : ℕ → PyDateTime) (test_rmse : ℚ) (include_patterns : Bool)
    (hour_offset : ℕ) : Except PyError ForecastPoint :=
  let forecast_time := times hour_offset
  let base_aqi := base_pred
  let state : Option (ℤ × Bool × Bool) × ℚ :=
    if include_patterns then
      let hour := forecast_time.hour
      let is_weekday : Bool := decide (forecast_time.weekday < 5)
      let is_weekend : Bool := ! is_weekday
      let aqi := base_aqi
      let aqi := add_seasonal_factor aqi forecast_time
      let aqi := add_weekly_variation aqi is_weekend
      let aqi := add_diurnal_pattern npCos npPi aqi hour
      let aqi := add_rush_hour_peaks aqi hour is_weekday
      (some (hour, is_weekday, is_weekend), aqi)
    else (none, base_aqi)
  let rmse := test_rmse
  let lower_bound : ℚ := max 0 (state.2 - 1.96 * rmse)
  let upper_bound : ℚ := state.2 + 1.96 * rmse
  match state.1 with
  | some (hour, _, is_weekend) =>
    .ok { timestamp := forecast_time
          hour_offset := hour_offset
          aqi_forecast := state.2
          aqi_lower := lower_bound
          aqi_upper := upper_bound
          base_aqi := base_aqi
          confidence_interval_width := upper_bound - lower_bound
          season := get_season forecast_time
          is_weekend := is_weekend
          is_rush_hour := decide (hour = 7 ∨ hour = 8 ∨ hour = 9 ∨
            hour = 19 ∨ hour = 20 ∨ hour = 21) }
  | none => .error .unboundLocalError

/-- `ForecastingEngine.generate_forecast` (`forecasting_engine.py`
lines 313-396): `ValueError` when no model is loaded, horizon clamp, then
the hourly loop.  A Python exception in any iteration aborts the whole
call, which `List.mapM` over `Except` reproduces. -/
def generate_forecast (npCos : ℚ → ℚ) (npPi : ℚ) (model_loaded : Bool)
    (base_pred : ℚ) (times : ℕ → PyDateTime) (test_rmse : ℚ)
    (forecast_hours : ℤ) (include_patterns : Bool) :
    Except PyError (List ForecastPoint) :=
  if ¬ model_loaded then .error .valueError
  else
    let fh := clamp_forecast_hours forecast_hours
    run_loop (forecast_step npCos npPi base_pred times test_rmse
      include_patterns) (List.range fh.toNat)

/-- `ForecastingEngine.calculate_confidence_intervals`
(`forecasting_engine.py` lines 453-478).  The z-score comes from
`scipy.stats.norm.ppf((1 + confidence_level) / 2)`, an external scipy
leaf, passed in as the parameter `z_score`; `test_rmse` is the value of
`self.model_metrics.get('test_rmse', 4.57)`. -/
def calculate_confidence_intervals (z_score : ℚ) (test_rmse : ℚ)
    (predictions : List ℚ) : List ℚ × List ℚ :=
  let rmse := test_rmse
  let margin := z_score * rmse
  let lower_bounds := predictions.map (fun p => max 0 (p - margin))
  let upper_bounds := predictions.map (fun p => p + margin)
  (lower_bounds, upper_bounds)

end ForecastingEngine

namespace AQIForecaster

/-- One entry of the `station_data` list consumed by
`AQIForecaster.predict_spatial_interpolation`: a dict with keys `lat`,
`lon`, `aqi` and `features` (a numpy array, per the docstring at
`aqi_forecasting_model.py` line 460). -/
structure StationData where
  lat : ℚ
  lon : ℚ
  aqi : ℚ
  features : List ℚ
  deriving DecidableEq, Repr, Inhabited

/-- Python `min` over a list of floats (raises on empty input; the modelled
code only reaches it on nonempty lists, so the empty case is arbitrary). -/
def py_min : List ℚ → ℚ
  | [] => 0
  | a :: rest => rest.foldl min a

/-- `np.argmin`: index of the first occurrence of the minimum. -/
def np_argmin : List ℚ → ℕ
  | [] => 0
  | [_] => 0
  | a :: b :: rest =>
    let j := np_argmin (b :: rest)
    if a ≤ (b :: rest).getD j 0 then 0 else j + 1

/-- `np.argsort`: the indices of the list, ordered by ascending value
(ties resolved by a stable sort in this model). -/
def np_argsort (l : List ℚ) : List ℕ :=
  (List.range l.length).mergeSort (fun i j => decide (l.getD i 0 ≤ l.getD j 0))

/-- One entry of the `nearest_stations` provenance list in the result of
`predict_spatial_interpolation` (`aqi_forecasting_model.py` lines 516-523). -/
structure NearestStationInfo where
  distance_km : ℚ
  aqi : ℚ
  weight : ℚ
  deriving DecidableEq, Repr

/-- Result dict of `predict_spatial_interpolation`
(`aqi_forecasting_model.py` lines 509-524). -/
structure InterpolationResult where
  latitude : ℚ
  longitude : ℚ
  interpolated_aqi : ℚ
  interpolated_features : List ℚ
  method : String
  k_nearest : ℕ
  nearest_stations : List NearestStationInfo
  deriving DecidableEq, Repr

/-- The distance list of `predict_spatial_interpolation`
(`aqi_forecasting_model.py` lines 471-478).  The haversine helper
`_haversine_distance` computes with numpy trigonometry and is passed in
as the parameter `haversine`. -/
def station_distances (haversine : ℚ → ℚ → ℚ → ℚ → ℚ)
    (target_lat target_lon : ℚ) (station_data : List StationData) : List ℚ :=
  station_data.map (fun s => haversine target_lat target_lon s.lat s.lon)

/-- The clamped `k_nearest` of `predict_spatial_interpolation`
(`aqi_forecasting_model.py` lines 467-469). -/
def clamped_k (station_data : List StationData) (k_nearest : ℕ) : ℕ :=
  if station_data.length < k_nearest then station_data.length else k_nearest

/-- `nearest_indices` of `predict_spatial_interpolation`
(`aqi_forecasting_model.py` line 481). -/
def nearest_indices_of (haversine : ℚ → ℚ → ℚ → ℚ → ℚ)
    (target_lat target_lon : ℚ) (station_data : List StationData)
    (k_nearest : ℕ) : List ℕ :=
  (np_argsort (station_distances haversine target_lat target_lon
    station_data)).take (clamped_k station_data k_nearest)

/-- `nearest_stations` of `predict_spatial_interpolation`
(`aqi_forecasting_model.py` line 482). -/
def nearest_stations_of (haversine : ℚ → ℚ → ℚ → ℚ → ℚ)
    (target_lat target_lon : ℚ) (station_data : List StationData)
    (k_nearest : ℕ) : List StationData :=
  (nearest_indices_of haversine target_lat target_lon station_data
    k_nearest).map (fun i => station_data.getD i default)

/-- `nearest_distances` of `predict_spatial_interpolation`
(`aqi_forecasting_model.py` line 483). -/
def nearest_distances_of (haversine : ℚ → ℚ → ℚ → ℚ → ℚ)
    (target_lat target_lon : ℚ) (station_data : List StationData)
    (k_nearest : ℕ) : List ℚ :=
  (nearest_indices_of haversine target_lat target_lon station_data
    k_nearest).map (fun i =>
      (station_distances haversine target_lat target_lon station_data).getD i 0)

/-- Raw IDW weights `1 / d ** idw_power`
(`aqi_forecasting_model.py` line 497). -/
def idw_weights_raw (haversine : ℚ → ℚ → ℚ → ℚ → ℚ)
    (target_lat target_lon : ℚ) (station_data : List StationData)
    (k_nearest : ℕ) (idw_power : ℕ) : List ℚ :=
  (nearest_distances_of haversine target_lat target_lon station_data
    k_nearest).map (fun d => 1.0 / d ^ idw_power)

/-- Normalised IDW weights (`aqi_forecasting_model.py` lines 497-499). -/
def idw_weights (haversine : ℚ → ℚ → ℚ → ℚ → ℚ)
    (target_lat target_lon : ℚ) (station_data : List StationData)
    (k_nearest : ℕ) (idw_power : ℕ) : List ℚ :=
  let weights_raw := idw_weights_raw haversine target_lat target_lon
    station_data k_nearest idw_power
  let total_weight := weights_raw.sum
  weights_raw.map (fun w => w / total_weight)

/-- The feature-accumulation loop of `predict_spatial_interpolation`
(`aqi_forecasting_model.py` lines 505-507):
`interpolated_features += w * np.array(station['features'])`.
NumPy broadcasting is modelled for the equal-length case the code uses;
a shape mismatch raises, modelled as `ValueError`. -/
def accumulate_features : List (ℚ × StationData) → List ℚ →
    Except PyError (List ℚ)
  | [], acc => .ok acc
  | (w, s) :: rest, acc =>
    if s.features.length = acc.length then
      accumulate_features rest
        (List.zipWith (fun a f => a + w * f) acc s.features)
    else .error .valueError

/-- `AQIForecaster.predict_spatial_interpolation`
(`aqi_forecasting_model.py` lines 447-524).  On an empty `station_data`
list, `nearest_stations` is empty and the read `nearest_stations[0]`
at line 486 raises `IndexError`, modelled by the emptiness test. -/
def predict_spatial_interpolation (haversine : ℚ → ℚ → ℚ → ℚ → ℚ)
    (target_lat target_lon : ℚ) (station_data : List StationData)
    (k_nearest : ℕ) (idw_power : ℕ) : Except PyError InterpolationResult :=
  let k := clamped_k station_data k_nearest
  let nearest_stations := nearest_stations_of haversine target_lat
    target_lon station_data k_nearest
  let nearest_distances := nearest_distances_of haversine target_lat
    target_lon station_data k_nearest
  if nearest_stations = [] then .error .indexError
  else
    let feature_dim := (nearest_stations.headD default).features.length
    if py_min nearest_distances < 0.1 then
      let closest_idx := np_argmin nearest_distances
      let interpolated_aqi := (nearest_stations.getD closest_idx default).aqi
      let interpolated_features :=
        (nearest_stations.getD closest_idx default).features
      let weights := (List.range nearest_stations.length).map
        (fun i => if i = closest_idx then (1.0 : ℚ) else 0.0)
      .ok { latitude := target_lat
            longitude := target_lon
            interpolated_aqi := interpolated_aqi
            interpolated_features := interpolated_features
            method := "IDW"
            k_nearest := k
            nearest_stations := (List.range nearest_stations.length).map
              (fun i =>
                { distance_km := nearest_distances.getD i 0
                  aqi := (nearest_stations.getD i default).aqi
                  weight := weights.getD i 0 }) }
    else
      let weights := idw_weights haversine target_lat target_lon
        station_data k_nearest idw_power
      let interpolated_aqi :=
        (List.zipWith (fun w s => w * s.aqi) weights nearest_stations).sum
      match accumulate_features (List.zip weights nearest_stations)
          (List.replicate feature_dim 0) with
      | .error e => .error e
      | .ok interpolated_features =>
        .ok { latitude := target_lat
              longitude := target_lon
              interpolated_aqi := interpolated_aqi
              interpolated_features := interpolated_features
              method := "IDW"
              k_nearest := k
              nearest_stations := (List.range nearest_stations.length).map
                (fun i =>
                  { distance_km := nearest_distances.getD i 0
                    aqi := (nearest_stations.getD i default).aqi
                    weight := weights.getD i 0 }) }

/-- The `temporal_features` dict of `predict_hyperlocal`: the code reads
only `temporal_features.get('hour', 12)` and
`temporal_features.get('month', 1)`, so the model keeps those two keys as
optional fields. -/
structure TemporalFeatures where
  hour : Option ℤ
  month : Option ℤ
  deriving DecidableEq, Repr

/-- The `components` sub-dict of the `predict_hyperlocal` result
(`aqi_forecasting_model.py` lines 635-638). -/
structure FusionComponents where
  satellite_contribution : ℚ
  ground_contribution : ℚ
  deriving DecidableEq, Repr

/-- Result dict of `predict_hyperlocal`
(`aqi_forecasting_model.py` lines 624-640). -/
structure HyperlocalResult where
  latitude : ℚ
  longitude : ℚ
  hyperlocal_aqi : ℚ
  aod_value : ℚ
  aod_derived_aqi : ℚ
  season : String
  confidence : String
  method : String
  temporal_factor : ℚ
  latitude_factor : ℚ
  components : FusionComponents
  nearest_stations_used : ℕ
  deriving DecidableEq, Repr

/-- Python `round(x, 2)`.  Python rounds float ties to even; this model
rounds the `.005` midpoint up instead, and no claim evaluates at such a
midpoint. -/
def py_round2 (x : ℚ) : ℚ := ((round (100 * x) : ℤ) : ℚ) / 100

/-- `AQIForecaster.predict_hyperlocal` (`aqi_forecasting_model.py`
lines 526-640).  The local `fusion_weights` is assigned only inside the
`if nearby_stations and len(nearby_stations) > 0:` branch (line 595), yet
the result dict reads `fusion_weights.get('aod', 1.0)` unconditionally at
line 636; on the satellite-only path this read raises
`UnboundLocalError`, modelled by the `Option` holding the variable. -/
def predict_hyperlocal (haversine : ℚ → ℚ → ℚ → ℚ → ℚ)
    (latitude longitude aod_value : ℚ)
    (temporal_features : TemporalFeatures)
    (nearby_stations : Option (List StationData))
    (season : Option String) : Except PyError HyperlocalResult :=
  let base_aqi_from_aod := 150 * aod_value
  let the_season : String :=
    match season with
    | some s => s
    | none =>
      let month := temporal_features.month.getD 1
      if month = 12 ∨ month = 1 ∨ month = 2 then "winter"
      else if month = 3 ∨ month = 4 ∨ month = 5 then "summer"
      else if month = 6 ∨ month = 7 ∨ month = 8 ∨ month = 9 then "monsoon"
      else "autumn"
  let seasonal_factor : ℚ :=
    if the_season = "winter" then 1.3
    else if the_season = "summer" then 0.9
    else if the_season = "monsoon" then 0.7
    else if the_season = "autumn" then 1.1
    else 1.0
  let aod_aqi := base_aqi_from_aod * seasonal_factor
  let latitude_factor : ℚ :=
    if 24 ≤ latitude ∧ latitude ≤ 30 then 1.2
    else if latitude > 30 then 0.8
    else 1.0
  let aod_aqi := aod_aqi * latitude_factor
  let stations_truthy : Bool :=
    match nearby_stations with
    | some stations => decide (0 < stations.length)
    | none => false
  let step3 : Except PyError (ℚ × String × String × Option (ℚ × ℚ)) :=
    match nearby_stations with
    | some stations =>
      if 0 < stations.length then
        match predict_spatial_interpolation haversine latitude longitude
            stations 3 2 with
        | .error e => .error e
        | .ok spatial_result =>
          let ground_aqi := spatial_result.interpolated_aqi
          let fusion_weights : ℚ × ℚ := (0.4, 0.6)
          .ok (fusion_weights.1 * aod_aqi + fusion_weights.2 * ground_aqi,
            "high", "Satellite-Ground Fusion", some fusion_weights)
      else .ok (aod_aqi, "medium", "Satellite AOD only", none)
    | none => .ok (aod_aqi, "medium", "Satellite AOD only", none)
  match step3 with
  | .error e => .error e
  | .ok (fused_aqi, confidence, method, fusion_weights) =>
    let hour := temporal_features.hour.getD 12
    let temporal_factor : ℚ :=
      if 6 ≤ hour ∧ hour ≤ 9 then 1.15
      else if 18 ≤ hour ∧ hour ≤ 21 then 1.10
      else if 0 ≤ hour ∧ hour ≤ 5 then 1.05
      else 1.0
    let fused_aqi := fused_aqi * temporal_factor
    let fused_aqi := min (max fused_aqi 0) 500
    match fusion_weights with
    | none => .error .unboundLocalError
    | some fw =>
      .ok { latitude := latitude
            longitude := longitude
            hyperlocal_aqi := py_round2 fused_aqi
            aod_value := aod_value
            aod_derived_aqi := py_round2 aod_aqi
            season := the_season
            confidence := confidence
            method := method
            temporal_factor := temporal_factor
            latitude_factor := latitude_factor
            components :=
              { satellite_contribution := fw.1
                ground_contribution := if stations_truthy then fw.2 else 0 }
            nearest_stations_used :=
              if stations_truthy then (nearby_stations.getD []).length
              else 0 }

/-- `AQIForecaster._create_sequences` (`aqi_forecasting_model.py`
lines 276-285): sliding windows `X[i-lookback:i]` paired with targets
`y[i]` for `i` in `range(lookback, len(X))`. -/
def create_sequences {α : Type} (X : List α) (y : List ℚ) (lookback : ℕ) :
    List (List α) × List ℚ :=
  ((List.range (X.length - lookback)).map
      (fun j => (X.drop j).take lookback),
   (List.range (X.length - lookback)).map (fun j => y.getD (j + lookback) 0))

/-- `AQIForecaster.predict_ensemble` (`aqi_forecasting_model.py`
lines 287-318).  The fitted LSTM and Random Forest predictors are
external collaborators, modelled as functions from an input row (LSTM:
from a window of rows) to a float; `None` models an untrained model.
When the padded LSTM array and the RF array have different lengths
(possible only when `X` is shorter than `lookback`), the numpy
elementwise blend raises on the shape mismatch, modelled as
`ValueError`. -/
def predict_ensemble {α : Type} (lstm_model : Option (List α → ℚ))
    (rf_model : Option (α → ℚ)) (X : List α) (lookback : ℕ)
    (lstm_weight : ℚ) : Except PyError (List ℚ) :=
  match lstm_model, rf_model with
  | some lstm, some rf =>
    let X_seq := (create_sequences X (List.replicate X.length 0) lookback).1
    let lstm_pred := X_seq.map lstm
    let rf_pred_initial := (X.take lookback).map rf
    let lstm_pred_full := rf_pred_initial ++ lstm_pred
    let rf_pred := X.map rf
    if lstm_pred_full.length = rf_pred.length then
      .ok (List.zipWith
        (fun a b => lstm_weight * a + (1 - lstm_weight) * b)
        lstm_pred_full rf_pred)
    else .error .valueError
  | _, _ => .error .valueError

end AQIForecaster

/-! ## Helper lemmas -/

theorem run_loop_ok {ε β : Type} (f : ℕ → Except ε β) (g : ℕ → β) :
    ∀ (l : List ℕ), (∀ a ∈ l, f a = .ok (g a)) →
      ForecastingEngine.run_loop f l = .ok (l.map g)
  | [], _ => rfl
  | i :: rest, h => by
    have hi : f i = .ok (g i) := h i (by simp)
    have hrest := run_loop_ok f g rest (fun a ha => h a (by simp [ha]))
    simp [ForecastingEngine.run_loop, hi, hrest]

theorem run_loop_error {ε β : Type} (f : ℕ → Except ε β) (e : ε) :
    ∀ (l : List ℕ), l ≠ [] → (∀ a ∈ l, f a = .error e) →
      ForecastingEngine.run_loop f l = .error e
  | [], h, _ => absurd rfl h
  | i :: _, _, h => by
    have hi : f i = .error e := h i (by simp)
    simp [ForecastingEngine.run_loop, hi]

theorem one_le_clamp (forecast_hours : ℤ) :
    1 ≤ ForecastingEngine.clamp_forecast_hours forecast_hours := by
  unfold ForecastingEngine.clamp_forecast_hours
  split <;> omega

/-! ## C2: negative AQI and `get_aqi_category` -/

/-- C2 counterexample: the claim says a negative AQI fails with
`InvalidAQIError`; in the code the call `get_aqi_category(-1)` returns
normally, taking the `aqi <= 50` branch, so the claim is false: the
function is total and no such error class exists in the source. -/
theorem get_aqi_category_neg_one_returns_good :
    AQIHealthAdvisor.get_aqi_category (-1) =
      { category := "Good", color := "#00E400", color_name := "Green",
        risk_level := "Minimal", emoji := "😊" } := by decide

/-- C2 (amended): for every negative AQI, `get_aqi_category` returns the
"Good" category record rather than raising anything. -/
theorem get_aqi_category_neg_returns_good (aqi : ℚ) (h : aqi < 0) :
    AQIHealthAdvisor.get_aqi_category aqi =
      { category := "Good", color := "#00E400", color_name := "Green",
        risk_level := "Minimal", emoji := "😊" } := by
  unfold AQIHealthAdvisor.get_aqi_category
  rw [if_pos (by linarith : aqi ≤ (50 : ℚ))]

/-- C2 witness: the amended theorem applied at the concrete input `-5`. -/
theorem get_aqi_category_neg_witness :
    AQIHealthAdvisor.get_aqi_category (-5) =
      { category := "Good", color := "#00E400", color_name := "Green",
        risk_level := "Minimal", emoji := "😊" } :=
  get_aqi_category_neg_returns_good (-5) (by norm_num)

/-! ## C10: rush-hour adjustment -/

/-- C10: `add_rush_hour_peaks` is additive and weekday-only: in hours 7-9
it adds `25 * (1 - |hour - 8| / 2)`, in hours 19-21 it adds
`30 * (1 - |hour - 20| / 2)`, it adds nothing outside those windows, it
returns the base unchanged on weekends, and in particular
`add_rush_hour_peaks 100 8 true = 125` and
`add_rush_hour_peaks 100 8 false = 100`. -/
theorem add_rush_hour_peaks_piecewise (base : ℚ) (hour : ℤ) :
    (ForecastingEngine.add_rush_hour_peaks base hour false = base) ∧
    (7 ≤ hour ∧ hour ≤ 9 →
      ForecastingEngine.add_rush_hour_peaks base hour true =
        base + 25 * (1 - |(hour : ℚ) - 8| / 2)) ∧
    (19 ≤ hour ∧ hour ≤ 21 →
      ForecastingEngine.add_rush_hour_peaks base hour true =
        base + 30 * (1 - |(hour : ℚ) - 20| / 2)) ∧
    (¬ (7 ≤ hour ∧ hour ≤ 9) → ¬ (19 ≤ hour ∧ hour ≤ 21) →
      ForecastingEngine.add_rush_hour_peaks base hour true = base) ∧
    ForecastingEngine.add_rush_hour_peaks 100 8 true = 125 ∧
    ForecastingEngine.add_rush_hour_peaks 100 8 false = 100 := by
  refine ⟨?_, ?_, ?_, ?_, ?_, ?_⟩
  · simp [ForecastingEngine.add_rush_hour_peaks]
  · intro h
    simp only [ForecastingEngine.add_rush_hour_peaks,
      ForecastingEngine.RUSH_HOUR_MORNING, Bool.not_true, Bool.false_eq_true,
      if_false, if_pos h]
    rw [if_neg (by simp), Int.cast_natAbs]
    push_cast
    ring
  · intro h
    have h1 : ¬ (7 ≤ hour ∧ hour ≤ 9) := by omega
    simp only [ForecastingEngine.add_rush_hour_peaks,
      ForecastingEngine.RUSH_HOUR_EVENING, Bool.not_true, Bool.false_eq_true,
      if_false, if_neg h1, if_pos h]
    rw [if_neg (by simp), Int.cast_natAbs]
    push_cast
    ring
  · intro h1 h2
    simp only [ForecastingEngine.add_rush_hour_peaks, Bool.not_true,
      Bool.false_eq_true, if_false, if_neg h1, if_neg h2]
    rw [if_neg (by simp)]
    ring
  · norm_num [ForecastingEngine.add_rush_hour_peaks,
      ForecastingEngine.RUSH_HOUR_MORNING]
  · norm_num [ForecastingEngine.add_rush_hour_peaks]

/-- C10 witness: the piecewise theorem applied at concrete hours 7
(morning taper), 20 (evening peak) and 3 (outside the windows). -/
theorem add_rush_hour_peaks_witness :
    ForecastingEngine.add_rush_hour_peaks 50 7 true =
      50 + 25 * (1 - |(7 : ℚ) - 8| / 2) ∧
    ForecastingEngine.add_rush_hour_peaks 50 20 true =
      50 + 30 * (1 - |(20 : ℚ) - 20| / 2) ∧
    ForecastingEngine.add_rush_hour_peaks 50 3 true = 50 :=
  ⟨(add_rush_hour_peaks_piecewise 50 7).2.1 (by norm_num),
   ((add_rush_hour_peaks_piecewise 50 20).2.2.1 (by norm_num)),
   ((add_rush_hour_peaks_piecewise 50 3).2.2.2.1 (by norm_num) (by norm_num))⟩

/-! ## C5: confidence-interval containment -/

/-- C5 counterexample: the claim quantifies over every point value, but at
the negative point `-1` (with the default-level z-score 1.96 and RMSE
4.57 ≥ 0) the computed lower bound is `max 0 (-1 - 1.96 * 4.57) = 0`,
and `0 ≤ -1` is false, so `lower ≤ point` fails. -/
theorem calculate_confidence_intervals_neg_point :
    (ForecastingEngine.calculate_confidence_intervals 1.96 4.57
        [-1]).1[0]? = some 0 ∧ ¬ ((0 : ℚ) ≤ -1) := by
  constructor
  · norm_num [ForecastingEngine.calculate_confidence_intervals]
  · norm_num

/-- C5 (amended): for every nonnegative prediction and every nonnegative
z-score and RMSE, the bounds computed by `calculate_confidence_intervals`
are exactly `max 0 (p - z * rmse)` and `p + z * rmse`, they bracket the
point, and the lower bound is nonnegative; for a negative point the lower
bound is still clamped to 0 and then exceeds the point.  `z_score`
abstracts the external `scipy.stats.norm.ppf((1 + confidence_level) / 2)`,
which is positive at the default level 0.95 (z is about 1.96). -/
theorem calculate_confidence_intervals_containment
    (z_score test_rmse : ℚ) (predictions : List ℚ) (i : ℕ) (p : ℚ)
    (hz : 0 ≤ z_score) (hr : 0 ≤ test_rmse) (hp0 : 0 ≤ p)
    (hp : predictions[i]? = some p) :
    (ForecastingEngine.calculate_confidence_intervals z_score test_rmse
        predictions).1[i]? = some (max 0 (p - z_score * test_rmse)) ∧
    (ForecastingEngine.calculate_confidence_intervals z_score test_rmse
        predictions).2[i]? = some (p + z_score * test_rmse) ∧
    max 0 (p - z_score * test_rmse) ≤ p ∧
    p ≤ p + z_score * test_rmse ∧
    0 ≤ max 0 (p - z_score * test_rmse) := by
  have hm : 0 ≤ z_score * test_rmse := mul_nonneg hz hr
  refine ⟨?_, ?_, ?_, ?_, ?_⟩
  · simp [ForecastingEngine.calculate_confidence_intervals,
      List.getElem?_map, hp]
  · simp [ForecastingEngine.calculate_confidence_intervals,
      List.getElem?_map, hp]
  · exact max_le hp0 (by linarith)
  · linarith
  · exact le_max_left 0 _

/-- C5 witness: spec scenario 5, `point = 50`, `rmse = 4.57`, `z = 1.96`:
lower bound `41.0428`, upper bound `58.9572`. -/
theorem calculate_confidence_intervals_witness :
    (ForecastingEngine.calculate_confidence_intervals 1.96 4.57
        [50]).1[0]? = some (max 0 ((50 : ℚ) - 1.96 * 4.57)) ∧
    (ForecastingEngine.calculate_confidence_intervals 1.96 4.57
        [50]).2[0]? = some ((50 : ℚ) + 1.96 * 4.57) ∧
    max 0 ((50 : ℚ) - 1.96 * 4.57) ≤ 50 ∧
    (50 : ℚ) ≤ 50 + 1.96 * 4.57 ∧
    0 ≤ max 0 ((50 : ℚ) - 1.96 * 4.57) :=
  calculate_confidence_intervals_containment 1.96 4.57 [50] 0 50
    (by norm_num) (by norm_num) (by norm_num) rfl

/-! ## C4: `generate_forecast` with `include_patterns=False` -/

/-- C4: with a loaded model and `include_patterns=False`, every call to
`generate_forecast` raises `UnboundLocalError` while building the first
forecast point: the locals `hour` and `is_weekend` are assigned only in
the `include_patterns` branch but are read unconditionally in the point
dict, so the pattern-free path never returns a forecast. -/
theorem generate_forecast_no_patterns_unbound_local
    (npCos : ℚ → ℚ) (npPi base_pred : ℚ)
    (times : ℕ → ForecastingEngine.PyDateTime) (test_rmse : ℚ)
    (forecast_hours : ℤ) :
    ForecastingEngine.generate_forecast npCos npPi true base_pred times
      test_rmse forecast_hours false = .error .unboundLocalError := by
  have h1 : (1 : ℤ) ≤ ForecastingEngine.clamp_forecast_hours forecast_hours :=
    one_le_clamp forecast_hours
  have hne : List.range
      (ForecastingEngine.clamp_forecast_hours forecast_hours).toNat ≠ [] := by
    simp only [ne_eq, List.range_eq_nil]
    omega
  show ForecastingEngine.run_loop _ _ = _
  exact run_loop_error _ _ _ hne (fun a _ => rfl)

/-! ## C1: `predict_hyperlocal` with no ground stations -/

/-- C1: contrary to the claim that the satellite-only path is an explicit
`"medium"`-confidence result state, every call to `predict_hyperlocal`
with `nearby_stations` absent (`None`) or empty raises
`UnboundLocalError`: the local `fusion_weights` is assigned only in the
ground-fusion branch but is read unconditionally while assembling the
result dict (`fusion_weights.get('aod', 1.0)` at line 636). -/
theorem predict_hyperlocal_satellite_only_raises
    (haversine : ℚ → ℚ → ℚ → ℚ → ℚ) (latitude longitude aod_value : ℚ)
    (temporal_features : AQIForecaster.TemporalFeatures)
    (season : Option String) :
    AQIForecaster.predict_hyperlocal haversine latitude longitude aod_value
      temporal_features none season = .error .unboundLocalError ∧
    AQIForecaster.predict_hyperlocal haversine latitude longitude aod_value
      temporal_features (some []) season = .error .unboundLocalError :=
  ⟨rfl, rfl⟩

/-! ## C6: fixed composition order of the temporal patterns -/

/-- C6: with patterns enabled, the pattern-adjusted AQI of every point of
the generated forecast equals
`add_rush_hour_peaks (add_diurnal_pattern (add_weekly_variation
(add_seasonal_factor base t) weekend) hour) hour weekday` — the fixed
composition seasonal → weekly → diurnal → rush-hour, each later
adjustment applied to the already-adjusted running value. -/
theorem generate_forecast_pattern_order
    (npCos : ℚ → ℚ) (npPi base_pred : ℚ)
    (times : ℕ → ForecastingEngine.PyDateTime) (test_rmse : ℚ)
    (forecast_hours : ℤ) :
    (ForecastingEngine.generate_forecast npCos npPi true base_pred times
        test_rmse forecast_hours true).map
      (List.map ForecastingEngine.ForecastPoint.aqi_forecast) =
    .ok ((List.range
        (ForecastingEngine.clamp_forecast_hours forecast_hours).toNat).map
      (fun i =>
        ForecastingEngine.add_rush_hour_peaks
          (ForecastingEngine.add_diurnal_pattern npCos npPi
            (ForecastingEngine.add_weekly_variation
              (ForecastingEngine.add_seasonal_factor base_pred (times i))
              (! decide ((times i).weekday < 5)))
            (times i).hour)
          (times i).hour (decide ((times i).weekday < 5)))) := by
  have hloop := run_loop_ok
    (ForecastingEngine.forecast_step npCos npPi base_pred times test_rmse
      true)
    (fun i =>
      let t := times i
      let adjusted :=
        ForecastingEngine.add_rush_hour_peaks
          (ForecastingEngine.add_diurnal_pattern npCos npPi
            (ForecastingEngine.add_weekly_variation
              (ForecastingEngine.add_seasonal_factor base_pred t)
              (! decide (t.weekday < 5)))
            t.hour)
          t.hour (decide (t.weekday < 5))
      { timestamp := t
        hour_offset := i
        aqi_forecast := adjusted
        aqi_lower := max 0 (adjusted - 1.96 * test_rmse)
        aqi_upper := adjusted + 1.96 * test_rmse
        base_aqi := base_pred
        confidence_interval_width :=
          adjusted + 1.96 * test_rmse - max 0 (adjusted - 1.96 * test_rmse)
        season := ForecastingEngine.get_season t
        is_weekend := ! decide (t.weekday < 5)
        is_rush_hour := decide (t.hour = 7 ∨ t.hour = 8 ∨ t.hour = 9 ∨
          t.hour = 19 ∨ t.hour = 20 ∨ t.hour = 21) })
    (List.range
      (ForecastingEngine.clamp_forecast_hours forecast_hours).toNat)
    (fun a _ => rfl)
  show (ForecastingEngine.run_loop _ _).map _ = _
  rw [hloop]
  simp only [Except.map, List.map_map]
  rfl

/-! ## Helper lemmas for the spatial interpolation claims -/

theorem clamped_k_eq_min (station_data : List AQIForecaster.StationData)
    (k : ℕ) : AQIForecaster.clamped_k station_data k =
      min k station_data.length := by
  unfold AQIForecaster.clamped_k
  split <;> omega

theorem np_argsort_length (l : List ℚ) :
    (AQIForecaster.np_argsort l).length = l.length := by
  simp [AQIForecaster.np_argsort, List.length_mergeSort]

theorem mem_np_argsort {l : List ℚ} {i : ℕ}
    (h : i ∈ AQIForecaster.np_argsort l) : i < l.length := by
  have := ((List.mergeSort_perm (List.range l.length)
    (fun i j => decide (l.getD i 0 ≤ l.getD j 0))).mem_iff).mp h
  simpa using this

theorem station_distances_length (haversine : ℚ → ℚ → ℚ → ℚ → ℚ)
    (a b : ℚ) (s : List AQIForecaster.StationData) :
    (AQIForecaster.station_distances haversine a b s).length = s.length := by
  simp [AQIForecaster.station_distances]

theorem nearest_indices_length (haversine : ℚ → ℚ → ℚ → ℚ → ℚ)
    (a b : ℚ) (s : List AQIForecaster.StationData) (k : ℕ) :
    (AQIForecaster.nearest_indices_of haversine a b s k).length =
      AQIForecaster.clamped_k s k := by
  simp [AQIForecaster.nearest_indices_of, np_argsort_length,
    station_distances_length, clamped_k_eq_min]

theorem nearest_stations_length (haversine : ℚ → ℚ → ℚ → ℚ → ℚ)
    (a b : ℚ) (s : List AQIForecaster.StationData) (k : ℕ) :
    (AQIForecaster.nearest_stations_of haversine a b s k).length =
      AQIForecaster.clamped_k s k := by
  simp [AQIForecaster.nearest_stations_of, nearest_indices_length]

theorem nearest_distances_length (haversine : ℚ → ℚ → ℚ → ℚ → ℚ)
    (a b : ℚ) (s : List AQIForecaster.StationData) (k : ℕ) :
    (AQIForecaster.nearest_distances_of haversine a b s k).length =
      AQIForecaster.clamped_k s k := by
  simp [AQIForecaster.nearest_distances_of, nearest_indices_length]

theorem getD_mem_of_lt {α : Type} (l : List α) (n : ℕ) (d : α)
    (h : n < l.length) : l.getD n d ∈ l := by
  rw [List.getD_eq_getElem?_getD, List.getElem?_eq_getElem h]
  exact List.getElem_mem h

theorem mem_nearest_stations (haversine : ℚ → ℚ → ℚ → ℚ → ℚ)
    (a b : ℚ) (s : List AQIForecaster.StationData) (k : ℕ) :
    ∀ x ∈ AQIForecaster.nearest_stations_of haversine a b s k, x ∈ s := by
  intro x hx
  obtain ⟨i, hi, rfl⟩ := List.mem_map.mp hx
  have hi2 : i ∈ AQIForecaster.np_argsort
      (AQIForecaster.station_distances haversine a b s) :=
    List.mem_of_mem_take hi
  have hlt : i < s.length := by
    have := mem_np_argsort hi2
    rwa [station_distances_length] at this
  exact getD_mem_of_lt s i default hlt

theorem foldl_min_mem (t : List ℚ) : ∀ (a : ℚ), t.foldl min a ∈ a :: t := by
  induction t with
  | nil => intro a; simp
  | cons b t ih =>
    intro a
    have h := ih (min a b)
    rw [List.foldl_cons]
    rcases List.mem_cons.mp h with h1 | h1
    · rcases le_total a b with hab | hab
      · rw [h1, min_eq_left hab]
        exact List.mem_cons_self a _
      · rw [h1, min_eq_right hab]
        exact List.mem_cons.mpr (Or.inr (List.mem_cons_self b _))
    · exact List.mem_cons.mpr (Or.inr (List.mem_cons.mpr (Or.inr h1)))

theorem foldl_min_le (t : List ℚ) : ∀ (a x : ℚ), x ∈ a :: t →
    t.foldl min a ≤ x := by
  induction t with
  | nil =>
    intro a x hx
    simp at hx
    simp [hx]
  | cons b t ih =>
    intro a x hx
    rw [List.foldl_cons]
    have hhead : t.foldl min (min a b) ≤ min a b :=
      ih (min a b) (min a b) (List.mem_cons_self _ _)
    rcases List.mem_cons.mp hx with h1 | h1
    · subst h1
      exact le_trans hhead (min_le_left _ _)
    · rcases List.mem_cons.mp h1 with h2 | h2
      · subst h2
        exact le_trans hhead (min_le_right _ _)
      · exact ih (min a b) x (List.mem_cons.mpr (Or.inr h2))

theorem py_min_mem (l : List ℚ) (h : l ≠ []) :
    AQIForecaster.py_min l ∈ l := by
  match l with
  | [] => exact absurd rfl h
  | a :: t => exact foldl_min_mem t a

theorem py_min_le (l : List ℚ) (x : ℚ) (hx : x ∈ l) :
    AQIForecaster.py_min l ≤ x := by
  match l with
  | [] => simp at hx
  | a :: t => exact foldl_min_le t a x hx

theorem np_argmin_lt : ∀ (l : List ℚ), l ≠ [] →
    AQIForecaster.np_argmin l < l.length
  | [], h => absurd rfl h
  | [_], _ => by simp [AQIForecaster.np_argmin]
  | a :: b :: rest, _ => by
    have ih := np_argmin_lt (b :: rest) (by simp)
    simp only [AQIForecaster.np_argmin]
    split
    · simp
    · simpa using Nat.succ_lt_succ ih

theorem np_argmin_getD_le : ∀ (l : List ℚ), ∀ x ∈ l,
    l.getD (AQIForecaster.np_argmin l) 0 ≤ x
  | [], x, hx => by simp at hx
  | [a], x, hx => by
    simp at hx
    simp [AQIForecaster.np_argmin, hx]
  | a :: b :: rest, x, hx => by
    have ih := np_argmin_getD_le (b :: rest)
    simp only [AQIForecaster.np_argmin]
    split
    · rename_i hle
      rcases List.mem_cons.mp hx with h1 | h1
      · simp [h1]
      · simpa using le_trans hle (ih x h1)
    · rename_i hgt
      have hgetD : (a :: b :: rest).getD
          (AQIForecaster.np_argmin (b :: rest) + 1) 0 =
          (b :: rest).getD (AQIForecaster.np_argmin (b :: rest)) 0 := by
        simp [List.getD_cons_succ]
      rw [hgetD]
      rcases List.mem_cons.mp hx with h1 | h1
      · rw [h1]
        exact le_of_not_le hgt
      · exact ih x h1

theorem accumulate_features_ok :
    ∀ (pairs : List (ℚ × AQIForecaster.StationData)) (acc : List ℚ),
      (∀ p ∈ pairs, p.2.features.length = acc.length) →
      ∃ out, AQIForecaster.accumulate_features pairs acc = .ok out
  | [], acc, _ => ⟨acc, rfl⟩
  | (w, s) :: rest, acc, h => by
    have hs : s.features.length = acc.length := h (w, s) (by simp)
    have hlen : (List.zipWith (fun a f => a + w * f) acc
        s.features).length = acc.length := by
      simp [List.length_zipWith, hs]
    obtain ⟨out, hout⟩ := accumulate_features_ok rest
      (List.zipWith (fun a f => a + w * f) acc s.features)
      (fun p hp => by rw [hlen]; exact h p (by simp [hp]))
    exact ⟨out, by simp [AQIForecaster.accumulate_features, hs, hout]⟩

theorem sum_map_div (l : List ℚ) (c : ℚ) :
    (l.map (fun w => w / c)).sum = l.sum / c := by
  induction l with
  | nil => simp
  | cons a t ih => simp [ih, add_div]

theorem getD_range_map {β : Type} (f : ℕ → β) (n i : ℕ) (hi : i < n)
    (d : β) : ((List.range n).map f).getD i d = f i := by
  rw [List.getD_eq_getElem?_getD, List.getElem?_map]
  simp [List.getElem?_range, hi]

open AQIForecaster

/-! ## C3: interpolation with no known stations, and k clamping -/

/-- C3 counterexample: on an empty station list the claim says the call
fails with `InsufficientDataError`; the code instead crashes with a plain
`IndexError` from the unchecked read `nearest_stations[0]`
(`aqi_forecasting_model.py` line 486) — no `InsufficientDataError` class
exists anywhere in the source. -/
theorem predict_spatial_interpolation_empty_index_error :
    predict_spatial_interpolation (fun _ _ _ _ => 0) 28.65 77.25 [] 3 2 =
      .error .indexError ∧
    predict_spatial_interpolation (fun _ _ _ _ => 0) 28.65 77.25 [] 3 2 ≠
      .error .insufficientData := by
  have hbase : predict_spatial_interpolation (fun _ _ _ _ => (0 : ℚ))
      28.65 77.25 [] 3 2 = .error .indexError := rfl
  refine ⟨hbase, ?_⟩
  intro h
  rw [hbase] at h
  simp at h

/-- C3 (amended): the empty-list call fails — with an uncaught
`IndexError` rather than the claimed dedicated `InsufficientDataError` —
and every non-empty call (with positive `k` and contributors sharing one
feature dimension, as the data model requires) returns normally with `k`
clamped to `min k (number of known points)`. -/
theorem predict_spatial_interpolation_empty_and_clamp :
    (∀ (haversine : ℚ → ℚ → ℚ → ℚ → ℚ) (lat lon : ℚ) (k p : ℕ),
      predict_spatial_interpolation haversine lat lon [] k p =
        .error .indexError) ∧
    (∀ (haversine : ℚ → ℚ → ℚ → ℚ → ℚ) (lat lon : ℚ)
        (stations : List StationData) (k p n : ℕ),
      stations ≠ [] → 0 < k → (∀ s ∈ stations, s.features.length = n) →
      ∃ r, predict_spatial_interpolation haversine lat lon stations k p =
          .ok r ∧ r.k_nearest = min k stations.length) := by
  constructor
  · intro haversine lat lon k p
    simp [predict_spatial_interpolation, AQIForecaster.nearest_stations_of,
      AQIForecaster.nearest_distances_of, AQIForecaster.nearest_indices_of,
      AQIForecaster.np_argsort, AQIForecaster.station_distances]
  · intro haversine lat lon stations k p n hne hk hfeat
    have hlen : (nearest_stations_of haversine lat lon stations k).length =
        clamped_k stations k :=
      nearest_stations_length haversine lat lon stations k
    have hck : clamped_k stations k = min k stations.length :=
      clamped_k_eq_min stations k
    have hkpos : 0 < clamped_k stations k := by
      rw [hck]
      exact lt_min hk (List.length_pos.mpr hne)
    have hns_ne : nearest_stations_of haversine lat lon stations k ≠ [] := by
      intro h0
      rw [h0] at hlen
      simp at hlen
      omega
    simp only [predict_spatial_interpolation]
    rw [if_neg hns_ne]
    have hhead_mem : (nearest_stations_of haversine lat lon stations
        k).headD default ∈ nearest_stations_of haversine lat lon stations
          k := by
      cases h : nearest_stations_of haversine lat lon stations k with
      | nil => exact absurd h hns_ne
      | cons a t => simp
    have hhead : ((nearest_stations_of haversine lat lon stations
        k).headD default).features.length = n :=
      hfeat _ (mem_nearest_stations haversine lat lon stations k _
        hhead_mem)
    by_cases hmin : py_min (nearest_distances_of haversine lat lon stations
        k) < 0.1
    · rw [if_pos hmin]
      exact ⟨_, rfl, by simpa using hck⟩
    · rw [if_neg hmin]
      obtain ⟨out, hout⟩ := accumulate_features_ok
        (List.zip (idw_weights haversine lat lon stations k p)
          (nearest_stations_of haversine lat lon stations k))
        (List.replicate ((nearest_stations_of haversine lat lon stations
          k).headD default).features.length 0)
        (by
          intro pr hpr
          obtain ⟨w, s⟩ := pr
          have hs : s ∈ nearest_stations_of haversine lat lon stations k :=
            (List.of_mem_zip hpr).2
          rw [List.length_replicate, hhead]
          exact hfeat s (mem_nearest_stations haversine lat lon stations k
            s hs))
      rw [hout]
      exact ⟨_, rfl, by simpa using hck⟩

/-! ## C7: near-colocation short-circuit -/

/-- C7: when the minimum selected distance is below 0.1 km, the
interpolation returns normally, its value is exactly the AQI of the
nearest selected station (the first index attaining the minimum
distance), that station's distance is a lower bound for every selected
distance, and the reported provenance assigns weight 1.0 to that station
and 0.0 to every other contributor. -/
theorem predict_spatial_interpolation_short_circuit
    (haversine : ℚ → ℚ → ℚ → ℚ → ℚ) (lat lon : ℚ)
    (stations : List StationData) (k p : ℕ)
    (hne : stations ≠ []) (hk : 0 < k)
    (hmin : py_min (nearest_distances_of haversine lat lon stations k) <
      0.1) :
    ∃ r, predict_spatial_interpolation haversine lat lon stations k p =
        .ok r ∧
      r.interpolated_aqi = ((nearest_stations_of haversine lat lon stations
        k).getD (np_argmin (nearest_distances_of haversine lat lon stations
          k)) default).aqi ∧
      (∀ d ∈ nearest_distances_of haversine lat lon stations k,
        (nearest_distances_of haversine lat lon stations k).getD
          (np_argmin (nearest_distances_of haversine lat lon stations k))
          0 ≤ d) ∧
      r.nearest_stations = (List.range (nearest_stations_of haversine lat
          lon stations k).length).map (fun i =>
        { distance_km := (nearest_distances_of haversine lat lon stations
            k).getD i 0
          aqi := ((nearest_stations_of haversine lat lon stations k).getD
            i default).aqi
          weight := if i = np_argmin (nearest_distances_of haversine lat
            lon stations k) then (1 : ℚ) else 0 }) := by
  have hlen : (nearest_stations_of haversine lat lon stations k).length =
      clamped_k stations k :=
    nearest_stations_length haversine lat lon stations k
  have hkpos : 0 < clamped_k stations k := by
    rw [clamped_k_eq_min stations k]
    exact lt_min hk (List.length_pos.mpr hne)
  have hns_ne : nearest_stations_of haversine lat lon stations k ≠ [] := by
    intro h0
    rw [h0] at hlen
    simp at hlen
    omega
  simp only [predict_spatial_interpolation]
  rw [if_neg hns_ne, if_pos hmin]
  refine ⟨_, rfl, rfl, np_argmin_getD_le _, ?_⟩
  apply List.map_congr_left
  intro i hi
  have hilt : i < (nearest_stations_of haversine lat lon stations
      k).length := List.mem_range.mp hi
  rw [NearestStationInfo.mk.injEq]
  refine ⟨rfl, rfl, ?_⟩
  rw [getD_range_map _ _ i hilt]
  split <;> norm_num

/-- C7 witness: one station 50 m away (`haversine` reporting 0.05 km):
the call returns that station's AQI, 120, by the short-circuit. -/
theorem predict_spatial_interpolation_short_circuit_witness :
    ∃ r, predict_spatial_interpolation (fun _ _ _ _ => 0.05) 0 0
        [{ lat := 0, lon := 0, aqi := 120, features := [1] }] 3 2 =
        .ok r ∧
      r.interpolated_aqi = ((nearest_stations_of (fun _ _ _ _ => 0.05) 0 0
        [{ lat := 0, lon := 0, aqi := 120, features := [1] }] 3).getD
          (np_argmin (nearest_distances_of (fun _ _ _ _ => 0.05) 0 0
            [{ lat := 0, lon := 0, aqi := 120, features := [1] }] 3))
          default).aqi ∧
      (∀ d ∈ nearest_distances_of (fun _ _ _ _ => 0.05) 0 0
          [{ lat := 0, lon := 0, aqi := 120, features := [1] }] 3,
        (nearest_distances_of (fun _ _ _ _ => 0.05) 0 0
          [{ lat := 0, lon := 0, aqi := 120, features := [1] }] 3).getD
          (np_argmin (nearest_distances_of (fun _ _ _ _ => 0.05) 0 0
            [{ lat := 0, lon := 0, aqi := 120, features := [1] }] 3))
          0 ≤ d) ∧
      r.nearest_stations = (List.range (nearest_stations_of
          (fun _ _ _ _ => 0.05) 0 0
          [{ lat := 0, lon := 0, aqi := 120, features := [1] }]
          3).length).map (fun i =>
        { distance_km := (nearest_distances_of (fun _ _ _ _ => 0.05) 0 0
            [{ lat := 0, lon := 0, aqi := 120, features := [1] }] 3).getD
            i 0
          aqi := ((nearest_stations_of (fun _ _ _ _ => 0.05) 0 0
            [{ lat := 0, lon := 0, aqi := 120, features := [1] }] 3).getD
            i default).aqi
          weight := if i = np_argmin (nearest_distances_of
              (fun _ _ _ _ => 0.05) 0 0
              [{ lat := 0, lon := 0, aqi := 120, features := [1] }] 3)
            then (1 : ℚ) else 0 }) :=
  predict_spatial_interpolation_short_circuit (fun _ _ _ _ => 0.05) 0 0
    [{ lat := 0, lon := 0, aqi := 120, features := [1] }] 3 2
    (by simp) (by norm_num)
    (by
      rw [show nearest_distances_of (fun _ _ _ _ => (0.05 : ℚ)) 0 0
          [{ lat := 0, lon := 0, aqi := 120, features := [1] }] 3 =
            [0.05] by
        simp [AQIForecaster.nearest_distances_of,
          AQIForecaster.nearest_indices_of, AQIForecaster.np_argsort,
          AQIForecaster.station_distances, AQIForecaster.clamped_k,
          show List.range 1 = [0] from rfl]]
      simp [AQIForecaster.py_min]
      norm_num)

/-- C3 witness: the amended theorem's non-empty half applied to one
station with a 1-dimensional feature vector and `k = 3`: the call
succeeds and `k` is clamped to `min 3 1 = 1`. -/
theorem predict_spatial_interpolation_clamp_witness :
    ∃ r, predict_spatial_interpolation (fun _ _ _ _ => 1) 0 0
        [{ lat := 0, lon := 0, aqi := 120, features := [1] }] 3 2 =
        .ok r ∧
      r.k_nearest =
        min 3 ([{ lat := 0, lon := 0, aqi := 120, features := [1] }] :
          List StationData).length :=
  predict_spatial_interpolation_empty_and_clamp.2 (fun _ _ _ _ => 1) 0 0
    [{ lat := 0, lon := 0, aqi := 120, features := [1] }] 3 2 1
    (by simp) (by norm_num) (by simp)

/-! ## C8: IDW weight normalization -/

/-- C8: for every non-degenerate query (every selected distance at least
0.1 km, hence positive; contributors sharing one feature dimension), the
normalised IDW weights `(1 / d_i ^ power) / Σ (1 / d_j ^ power)` over the
selected stations sum to exactly 1 in exact arithmetic, and the
interpolation returns normally with the interpolated scalar equal to
`Σ w_i * value_i`. -/
theorem idw_weights_normalized
    (haversine : ℚ → ℚ → ℚ → ℚ → ℚ) (lat lon : ℚ)
    (stations : List StationData) (k p n : ℕ)
    (hne : stations ≠ []) (hk : 0 < k)
    (hd : ∀ d ∈ nearest_distances_of haversine lat lon stations k,
      (0.1 : ℚ) ≤ d)
    (hfeat : ∀ s ∈ stations, s.features.length = n) :
    (idw_weights haversine lat lon stations k p).sum = 1 ∧
    ∃ r, predict_spatial_interpolation haversine lat lon stations k p =
        .ok r ∧
      r.interpolated_aqi = (List.zipWith (fun w s => w * s.aqi)
        (idw_weights haversine lat lon stations k p)
        (nearest_stations_of haversine lat lon stations k)).sum := by
  have hkpos : 0 < clamped_k stations k := by
    rw [clamped_k_eq_min stations k]
    exact lt_min hk (List.length_pos.mpr hne)
  have hnd_len : (nearest_distances_of haversine lat lon stations
      k).length = clamped_k stations k :=
    nearest_distances_length haversine lat lon stations k
  have hnd_ne : nearest_distances_of haversine lat lon stations k ≠ [] := by
    intro h0
    rw [h0] at hnd_len
    simp at hnd_len
    omega
  have hraw_pos : ∀ w ∈ idw_weights_raw haversine lat lon stations k p,
      0 < w := by
    intro w hw
    obtain ⟨d, hd2, rfl⟩ := List.mem_map.mp hw
    have h01 := hd d hd2
    have hdp : 0 < d ^ p := pow_pos (by linarith) p
    exact div_pos (by norm_num) hdp
  have hraw_ne : idw_weights_raw haversine lat lon stations k p ≠ [] := by
    simp only [idw_weights_raw, ne_eq, List.map_eq_nil_iff]
    exact hnd_ne
  have hT : 0 < (idw_weights_raw haversine lat lon stations k p).sum :=
    List.sum_pos _ hraw_pos hraw_ne
  have hsum : (idw_weights haversine lat lon stations k p).sum = 1 := by
    simp only [idw_weights]
    rw [sum_map_div, div_self (ne_of_gt hT)]
  refine ⟨hsum, ?_⟩
  have hmin_ge : ¬ py_min (nearest_distances_of haversine lat lon stations
      k) < 0.1 :=
    not_lt.mpr (hd _ (py_min_mem _ hnd_ne))
  have hns_len : (nearest_stations_of haversine lat lon stations
      k).length = clamped_k stations k :=
    nearest_stations_length haversine lat lon stations k
  have hns_ne : nearest_stations_of haversine lat lon stations k ≠ [] := by
    intro h0
    rw [h0] at hns_len
    simp at hns_len
    omega
  have hhead_mem : (nearest_stations_of haversine lat lon stations
      k).headD default ∈ nearest_stations_of haversine lat lon stations
        k := by
    cases h : nearest_stations_of haversine lat lon stations k with
    | nil => exact absurd h hns_ne
    | cons a t => simp
  have hhead : ((nearest_stations_of haversine lat lon stations k).headD
      default).features.length = n :=
    hfeat _ (mem_nearest_stations haversine lat lon stations k _ hhead_mem)
  simp only [predict_spatial_interpolation]
  rw [if_neg hns_ne, if_neg hmin_ge]
  obtain ⟨out, hout⟩ := accumulate_features_ok
    (List.zip (idw_weights haversine lat lon stations k p)
      (nearest_stations_of haversine lat lon stations k))
    (List.replicate ((nearest_stations_of haversine lat lon stations
      k).headD default).features.length 0)
    (by
      intro pr hpr
      obtain ⟨w, s⟩ := pr
      have hs : s ∈ nearest_stations_of haversine lat lon stations k :=
        (List.of_mem_zip hpr).2
      rw [List.length_replicate, hhead]
      exact hfeat s (mem_nearest_stations haversine lat lon stations k s
        hs))
  rw [hout]
  exact ⟨_, rfl, rfl⟩

/-- C8 witness: one station at 1 km (constant `haversine`): the single
IDW weight is `(1/1²)/(1/1²) = 1`, the weights sum to 1, and the call
returns the weighted value. -/
theorem idw_weights_normalized_witness :
    (idw_weights (fun _ _ _ _ => 1) 0 0
      [{ lat := 0, lon := 0, aqi := 120, features := [1] }] 3 2).sum = 1 ∧
    ∃ r, predict_spatial_interpolation (fun _ _ _ _ => 1) 0 0
        [{ lat := 0, lon := 0, aqi := 120, features := [1] }] 3 2 =
        .ok r ∧
      r.interpolated_aqi = (List.zipWith (fun w s => w * s.aqi)
        (idw_weights (fun _ _ _ _ => 1) 0 0
          [{ lat := 0, lon := 0, aqi := 120, features := [1] }] 3 2)
        (nearest_stations_of (fun _ _ _ _ => 1) 0 0
          [{ lat := 0, lon := 0, aqi := 120, features := [1] }] 3)).sum :=
  idw_weights_normalized (fun _ _ _ _ => 1) 0 0
    [{ lat := 0, lon := 0, aqi := 120, features := [1] }] 3 2 1
    (by simp) (by norm_num)
    (by
      rw [show nearest_distances_of (fun _ _ _ _ => (1 : ℚ)) 0 0
          [{ lat := 0, lon := 0, aqi := 120, features := [1] }] 3 =
            [1] by
        simp [AQIForecaster.nearest_distances_of,
          AQIForecaster.nearest_indices_of, AQIForecaster.np_argsort,
          AQIForecaster.station_distances, AQIForecaster.clamped_k,
          show List.range 1 = [0] from rfl]]
      intro d hdm
      simp at hdm
      rw [hdm]
      norm_num)
    (by simp)

/-! ## C9: ensemble blend and lookback fallback -/

theorem zipWith_getElem?_eq {α β γ : Type} (f : α → β → γ)
    (l1 : List α) (l2 : List β) (i : ℕ) (a : α) (b : β)
    (h1 : l1[i]? = some a) (h2 : l2[i]? = some b) :
    (List.zipWith f l1 l2)[i]? = some (f a b) := by
  rw [List.getElem?_zipWith', h1, h2]
  rfl

/-- C9: for every batch longer than the lookback window and both models
loaded, `predict_ensemble` succeeds with one prediction per row; at each
of the first `lookback` positions the prediction equals the Random Forest
model's raw output for that row exactly (the blend
`w * primary + (1 - w) * secondary` collapses because the RF output is
substituted for the missing LSTM value), and at every later position `i`
it equals the weighted blend of the LSTM output on the window
`X[i-lookback:i]` and the RF output on row `i`; the default weight is
`lstm_weight = 0.7`. -/
theorem predict_ensemble_blend {α : Type} (lstm : List α → ℚ) (rf : α → ℚ)
    (X : List α) (lookback : ℕ) (lstm_weight : ℚ)
    (hlb : lookback < X.length) :
    ∃ preds, predict_ensemble (some lstm) (some rf) X lookback lstm_weight
        = .ok preds ∧
      preds.length = X.length ∧
      (∀ i, i < lookback → preds[i]? = (X[i]?).map rf) ∧
      (∀ i, lookback ≤ i → i < X.length →
        preds[i]? = (X[i]?).map (fun x =>
          lstm_weight * lstm ((X.drop (i - lookback)).take lookback) +
          (1 - lstm_weight) * rf x)) := by
  have hlen_init : ((X.take lookback).map rf).length = lookback := by
    simp [List.length_take]
    omega
  have hlen_seq : (((create_sequences X
      (List.replicate X.length 0) lookback).1).map lstm).length =
      X.length - lookback := by
    simp [create_sequences]
  have hlen_full : (((X.take lookback).map rf) ++
      ((create_sequences X (List.replicate X.length 0) lookback).1).map
        lstm).length = X.length := by
    rw [List.length_append, hlen_init, hlen_seq]
    omega
  have hlen_rf : (X.map rf).length = X.length := by simp
  simp only [predict_ensemble]
  rw [if_pos (by rw [hlen_full, hlen_rf])]
  refine ⟨_, rfl, ?_, ?_, ?_⟩
  · rw [List.length_zipWith, hlen_full, hlen_rf]
    omega
  · intro i hi
    have hxi : i < X.length := lt_trans hi hlb
    obtain ⟨x, hx⟩ : ∃ x, X[i]? = some x :=
      ⟨_, List.getElem?_eq_getElem hxi⟩
    have hfull : (((X.take lookback).map rf) ++
        ((create_sequences X (List.replicate X.length 0) lookback).1).map
          lstm)[i]? = some (rf x) := by
      rw [List.getElem?_append, if_pos (by omega), List.getElem?_map,
        List.getElem?_take, if_pos hi, hx]
      rfl
    have hrfp : (X.map rf)[i]? = some (rf x) := by
      rw [List.getElem?_map, hx]
      rfl
    rw [zipWith_getElem?_eq _ _ _ _ _ _ hfull hrfp, hx]
    simp only [Option.map_some']
    congr 1
    ring
  · intro i h1 h2
    obtain ⟨x, hx⟩ : ∃ x, X[i]? = some x :=
      ⟨_, List.getElem?_eq_getElem h2⟩
    have hseq : ((create_sequences X (List.replicate X.length 0)
        lookback).1)[i - lookback]? =
        some ((X.drop (i - lookback)).take lookback) := by
      simp only [create_sequences, List.getElem?_map]
      rw [List.getElem?_range (by omega)]
      rfl
    have hfull : (((X.take lookback).map rf) ++
        ((create_sequences X (List.replicate X.length 0) lookback).1).map
          lstm)[i]? =
        some (lstm ((X.drop (i - lookback)).take lookback)) := by
      rw [List.getElem?_append, if_neg (by omega), hlen_init,
        List.getElem?_map, hseq]
      rfl
    have hrfp : (X.map rf)[i]? = some (rf x) := by
      rw [List.getElem?_map, hx]
      rfl
    rw [zipWith_getElem?_eq _ _ _ _ _ _ hfull hrfp, hx]
    rfl

/-- C9 witness: rows `[1, 2, 3]`, `lookback = 1`, default weight `0.7`,
LSTM summing its window and RF adding one to its row: position 0 is the
raw RF output and positions 1, 2 are the 70/30 blends. -/
theorem predict_ensemble_blend_witness :
    ∃ preds, predict_ensemble (some (fun l => l.sum))
        (some (fun x : ℚ => x + 1)) [1, 2, 3] 1 0.7 = .ok preds ∧
      preds.length = ([1, 2, 3] : List ℚ).length ∧
      (∀ i, i < 1 → preds[i]? =
        ((([1, 2, 3] : List ℚ))[i]?).map (fun x : ℚ => x + 1)) ∧
      (∀ i, 1 ≤ i → i < ([1, 2, 3] : List ℚ).length →
        preds[i]? = ((([1, 2, 3] : List ℚ))[i]?).map (fun x =>
          0.7 * (((([1, 2, 3] : List ℚ)).drop (i - 1)).take 1).sum +
          (1 - 0.7) * (x + 1))) :=
  predict_ensemble_blend (fun l => l.sum) (fun x : ℚ => x + 1) [1, 2, 3] 1
    0.7 (by norm_num)
